import Mathlib

/-!
Shallow embedding of the MATHPULSE-AI analytics module
(`src/backend/analytics.py`) and proofs about its specification.

Modelling conventions:
* Python floats are modelled as rational numbers (`ℚ`); the transcendental
  functions `math.log` / `math.exp` are modelled by `Real.log` / `Real.exp`,
  so the few values they produce live in `ℝ`.
* Python's `round(x, n)` (round half to even) is modelled by `pyRound`.
* Calls into external libraries (scipy's bounded minimiser, sklearn's
  weighted linear regression, the `datetime` library) are modelled as
  explicit function parameters gathered in the `Ext` structure; everything
  else is translated directly from the source.
* A Python function that can raise is modelled with an `Option` result
  (`none` = the exception escapes).
-/

namespace MathPulse

attribute [local semireducible] Rat.mul Rat.add Rat.sub Rat.inv

/-- Round half to even on a rational, the semantics of Python's `round`
applied to an exact value. -/
def rndHE (x : ℚ) : ℤ :=
  if x - (⌊x⌋ : ℚ) < 1/2 then ⌊x⌋
  else if 1/2 < x - (⌊x⌋ : ℚ) then ⌊x⌋ + 1
  else if ⌊x⌋ % 2 = 0 then ⌊x⌋ else ⌊x⌋ + 1

/-- Python's `round(x, n)` on rationals. -/
def pyRound (n : ℕ) (x : ℚ) : ℚ := (rndHE (x * 10 ^ n) : ℚ) / 10 ^ n

/-- `zip` of three lists, mirroring Python's 3-argument `zip` (it truncates
to the shortest list). -/
def zip3 {α β γ : Type} : List α → List β → List γ → List (α × β × γ)
  | a :: as, b :: bs, c :: cs => (a, b, c) :: zip3 as bs cs
  | _, _, _ => []

/-! ### TTL cache (`_cache_get` / `_cache_set`)

A Python dict maps each key to a `(timestamp, value)` pair; we model it as
an association list whose keys are unique (dict semantics).  `del d[key]`
is modelled by filtering the key out, which agrees with `del` on any
unique-keyed list. -/

/-- One cache namespace: key ↦ (insertion time, value). -/
def CacheMap (α : Type) : Type := List (String × ℚ × α)

/-- Dict lookup. -/
def cacheLookup {α : Type} : CacheMap α → String → Option (ℚ × α)
  | [], _ => none
  | (k', ts, v) :: rest, k => if k' = k then some (ts, v) else cacheLookup rest k

/-- `del cache[key]`. -/
def cacheDel {α : Type} (c : CacheMap α) (k : String) : CacheMap α :=
  c.filter (fun e => e.1 ≠ k)

/-- `_cache_get(cache, key, ttl)` at current time `now`: return the value
only if it has not expired, otherwise evict the key and return `None`.
Returns the value (if any) together with the possibly-updated cache. -/
def cache_get {α : Type} (cache : CacheMap α) (key : String) (ttl : ℚ) (now : ℚ) :
    Option α × CacheMap α :=
  match cacheLookup cache key with
  | some (ts, val) => if now - ts < ttl then (some val, cache) else (none, cacheDel cache key)
  | none => (none, cache)

/-- `_cache_set(cache, key, value)` at current time `now`: store with the
current timestamp, overwriting (in place) any prior entry. -/
def cache_set {α : Type} (cache : CacheMap α) (key : String) (value : α) (now : ℚ) :
    CacheMap α :=
  match cache with
  | [] => [(key, now, value)]
  | (k', ts', v') :: rest =>
      if k' = key then (key, now, value) :: rest
      else (k', ts', v') :: cache_set rest key value now

/-! ### Efficiency score (`_calculate_efficiency_score`) -/

/-- The per-attempt efficiency term of `_calculate_efficiency_score`:
a time spent `t ≤ 0` is replaced by `1.0` before dividing, a wrong answer
multiplies by `0.3`, multiple attempts divide, and the result is capped
at 150. -/
def perItemEff (classAvgTime : ℚ) (t : ℚ) (correct : Bool) (attempts : ℤ) : ℚ :=
  let t' := if t ≤ 0 then 1 else t
  let timeFactor := classAvgTime / t'
  let accMult : ℚ := if correct then 1 else 3/10
  let attemptPenalty : ℚ := 1 / ((max attempts 1 : ℤ) : ℚ)
  min (timeFactor * accMult * attemptPenalty * 100) 150

/-- `_calculate_efficiency_score`.  Returns `none` exactly when the Python
code would raise `ZeroDivisionError` (the `zip` of the three lists is empty
while `student_times` is not, so `len(efficiencies) == 0`). -/
def calculate_efficiency_score (student_times : List ℚ) (student_accuracies : List Bool)
    (class_avg_time : ℚ) (attempt_counts : List ℤ) : Option ℚ :=
  if student_times = [] ∨ class_avg_time ≤ 0 then some 50
  else
    let efficiencies := (zip3 student_times student_accuracies attempt_counts).map
      (fun tca => perItemEff class_avg_time tca.1 tca.2.1 tca.2.2)
    if efficiencies.length = 0 then none
    else
      let raw := efficiencies.sum / (efficiencies.length : ℚ)
      some (pyRound 2 (min (max raw 0) 100))

/-! ### IRT helpers -/

/-- `_irt_3pl_probability`: the 3-parameter-logistic model
`P(correct) = c + (1-c)/(1 + exp(-a*(theta-b)))`, with the exponent clamped
to `[-20, 20]` before exponentiation. -/
noncomputable def _irt_3pl_probability (theta a b c : ℝ) : ℝ :=
  let exponent := -a * (theta - b)
  let exponent2 := max (-20) (min 20 exponent)
  c + (1 - c) / (1 + Real.exp exponent2)

/-- One IRT observation: `{questionId, correct}`. -/
structure Obs where
  questionId : String
  correct : Bool
deriving DecidableEq

/-- Per-question IRT parameters `{a, b, c}`. -/
structure DiffP where
  a : ℚ
  b : ℚ
  c : ℚ
deriving DecidableEq

/-- The negative log-likelihood objective built inside `_estimate_theta`
(unknown questions default to `{a=1.0, b=0.0, c=0.25}`, probabilities are
clamped to `[1e-10, 1-1e-10]` before the logarithm). -/
noncomputable def neg_log_likelihood (responses : List Obs)
    (difficulty_params : List (String × DiffP)) (theta : ℝ) : ℝ :=
  -(responses.foldl (fun ll r =>
      let pr := (difficulty_params.lookup r.questionId).getD ⟨1, 0, 1/4⟩
      let p := _irt_3pl_probability theta pr.a pr.b pr.c
      let p2 := max (1/10^10) (min (1 - 1/10^10) p)
      ll + (if r.correct then Real.log p2 else Real.log (1 - p2))) 0)

/-- The collaborators outside this repository that the analytics module
calls into.  `minimize` models scipy's `minimize_scalar(neg_log_likelihood,
bounds=(-4,4), method="bounded")` (the returned `result.x` as a function of
the data defining the objective); `slope` models the numpy/sklearn
recency-weighted linear-regression coefficient; `isoOfTs` models
`datetime.utcfromtimestamp(..).isoformat()`; `parseDays` models ISO parsing
followed by `(utcnow - parsed).days`, `none` meaning the parse raised. -/
structure Ext where
  minimize : List Obs → List (String × DiffP) → ℚ
  slope : List (ℚ × ℚ) → ℚ
  isoOfTs : ℚ → String
  parseDays : String → Option ℤ

/-- `_estimate_theta`: 0.0 on an empty observation list, otherwise the
bounded minimiser's abscissa rounded to 3 decimal places. -/
def _estimate_theta (ext : Ext) (responses : List Obs)
    (difficulty_params : List (String × DiffP)) : ℚ :=
  if responses = [] then 0
  else pyRound 3 (ext.minimize responses difficulty_params)

/-- `_calculate_learning_velocity`: 0.0 below 2 points, otherwise the
weighted-regression slope rounded to 4 decimal places. -/
def _calculate_learning_velocity (ext : Ext) (scores_over_time : List (ℚ × ℚ)) : ℚ :=
  if scores_over_time.length < 2 then 0
  else pyRound 4 (ext.slope scores_over_time)

/-- `_get_competency_level`: walk `COMPETENCY_THRESHOLDS` in insertion
order, then the fallback `"advanced" if score >= 85 else "beginner"`. -/
def _get_competency_level (score : ℚ) : String :=
  if 0 ≤ score ∧ score < 40 then "beginner"
  else if 40 ≤ score ∧ score < 65 then "developing"
  else if 65 ≤ score ∧ score < 85 then "proficient"
  else if 85 ≤ score ∧ score < 100 then "advanced"
  else if 85 ≤ score then "advanced" else "beginner"

/-- `max` of a Python list of numbers (callers guarantee nonemptiness;
`0` stands for the unreachable empty case). -/
def listMaxQ : List ℚ → ℚ
  | [] => 0
  | x :: xs => xs.foldl max x

/-! ### Python `or` chains and string helpers -/

/-- `a or d` for an optional number, where both `None` and `0` are falsy. -/
def pyOrQ2 (o : Option ℚ) (d : ℚ) : ℚ :=
  match o with
  | some x => if x = 0 then d else x
  | none => d

/-- `a or next` keeping optionality (both `None` and `0` are falsy). -/
def pyOrOpt (o : Option ℚ) (next : Option ℚ) : Option ℚ :=
  match o with
  | some x => if x = 0 then next else some x
  | none => next

/-- `a or d` for an optional string, where `None` and `""` are falsy. -/
def pyOrS (o : Option String) (d : String) : String :=
  match o with
  | some s => if s = "" then d else s
  | none => d

/-- `x or 0` on an optional int (`None` and `0` both give `0`). -/
def pyOrZ (x : Option ℤ) : ℤ := x.getD 0

/-- `x or 0` on an optional float. -/
def pyOrQ (x : Option ℚ) : ℚ := x.getD 0

/-- Zero-pad a digit string on the left to `n` characters. -/
def padZeros (s : String) (n : ℕ) : String :=
  if s.length ≥ n then s else String.mk (List.replicate (n - s.length) '0') ++ s

/-- Python's fixed-point float formatting `f"{x:.nd f}"` modelled on an
exact rational (round half to even, `nd = 0` prints no decimal point). -/
def fmtFixed (nd : ℕ) (x : ℚ) : String :=
  let scaled := rndHE (x * 10 ^ nd)
  let sign := if scaled < 0 then "-" else ""
  let n := scaled.natAbs
  if nd = 0 then sign ++ toString (n : ℕ)
  else sign ++ toString (n / 10 ^ nd) ++ "." ++ padZeros (toString (n % 10 ^ nd)) nd

/-- Python's `f"{x:+.nd f}"` (an explicit sign; a negative zero rendered by
Python as `-0…` is rendered here with `+`, which no theorem depends on). -/
def fmtSigned (nd : ℕ) (x : ℚ) : String :=
  if rndHE (x * 10 ^ nd) < 0 then fmtFixed nd x else "+" ++ fmtFixed nd x

/-- Python's `str.title()`: the first character of each run of letters is
uppercased, every other letter lowercased. -/
def pyTitle (s : String) : String :=
  String.mk (s.data.foldl (fun (acc : List Char × Bool) c =>
    (acc.1 ++ [if acc.2 then c.toLower else c.toUpper], c.isAlpha)) ([], false)).1

/-- `topic.replace("_", " ")`, written character-wise (the pattern is a
single character). -/
def pyReplaceUnderscores (s : String) : String :=
  String.mk (s.data.map (fun c => if c = '_' then ' ' else c))

/-! ### Quiz attempt records and the Competency Aggregator -/

/-- The value found under the `"correct"` key of a raw attempt dict:
absent (`.get` default `False`), a Python bool, or a number.  (Values of
other types are not modelled; no claim depends on them.) -/
inductive PyCorrect where
  | missing
  | bool (b : Bool)
  | num (q : ℚ)
deriving DecidableEq

/-- A raw quiz-attempt record.  Each field holds the result of the
corresponding dict access; `score`, `total` and `attempts` carry their
`.get` defaults (`0`, `1` and `1`) already applied, the optional fields
distinguish a missing key.  Timestamps are modelled only in their numeric
(`int`/`float` seconds) form. -/
structure QuizEntry where
  topicId : Option String
  topic : Option String
  questionId : Option String
  id : Option String
  correct : PyCorrect
  score : ℚ
  total : ℚ
  attempts : ℤ
  timeTaken : Option ℚ
  timeSpent : Option ℚ
  completedAt : Option ℚ
  timestamp : Option ℚ
  date : Option ℚ
deriving DecidableEq

/-- `entry.get("topicId") or entry.get("topic") or "Unknown"`. -/
def topicOf (e : QuizEntry) : String := pyOrS e.topicId (pyOrS e.topic "Unknown")

/-- `entry.get("timeTaken") or entry.get("timeSpent") or 60`. -/
def timeOf (e : QuizEntry) : ℚ := pyOrQ2 e.timeTaken (pyOrQ2 e.timeSpent 60)

/-- `entry.get("completedAt") or entry.get("timestamp") or entry.get("date")`,
`none` when the whole chain is falsy (so the `if ts:` guard fails). -/
def tsOf (e : QuizEntry) : Option ℚ :=
  pyOrOpt e.completedAt (pyOrOpt e.timestamp (pyOrOpt e.date none))

/-- The boolean the first (IRT) loop derives from the `"correct"` value:
a bool is compared `> 0.5` (identity, since Python bools are ints), a
number is compared `> 0.5`, a missing key defaults to `False`. -/
def correctForIrt (e : QuizEntry) : Bool :=
  match e.correct with
  | .missing => false
  | .bool b => b
  | .num q => decide (q > 1/2)

/-- `entry.get("questionId", entry.get("id", f"TOPIC_k"))` where `k` is
the running length of `all_responses_for_irt`. -/
def qidOf (t : String) (k : ℕ) (e : QuizEntry) : String :=
  e.questionId.getD (e.id.getD (t ++ "_" ++ toString k))

/-- Append an entry to its topic's group, keeping the first-appearance
order of topics (Python `defaultdict` insertion order). -/
def insertEntry (acc : List (String × List QuizEntry)) (t : String) (e : QuizEntry) :
    List (String × List QuizEntry) :=
  match acc with
  | [] => [(t, [e])]
  | (t', es) :: rest =>
      if t' = t then (t', es ++ [e]) :: rest else (t', es) :: insertEntry rest t e

/-- One iteration of the topic-grouping loop: a present but empty-string
filter is falsy in Python and therefore filters nothing. -/
def groupStep (topic_filter : Option String) (acc : List (String × List QuizEntry))
    (e : QuizEntry) : List (String × List QuizEntry) :=
  let t := topicOf e
  match topic_filter with
  | some f => if f = "" then insertEntry acc t e
              else if t = f then insertEntry acc t e else acc
  | none => insertEntry acc t e

/-- The topic-grouping loop of `compute_competency_analysis`. -/
def groupByTopic (topic_filter : Option String) (hist : List QuizEntry) :
    List (String × List QuizEntry) :=
  hist.foldl (groupStep topic_filter) []

/-- The flattened `(topic, entry)` stream of the first loop over
`topic_data.items()`. -/
def flatWithTopic (groups : List (String × List QuizEntry)) : List (String × QuizEntry) :=
  (groups.map (fun g => g.2.map (fun e => (g.1, e)))).flatten

/-- `all_responses_for_irt` as built by the first loop. -/
def irtObsOf (groups : List (String × List QuizEntry)) : List Obs :=
  (flatWithTopic groups).enum.map (fun ke => ⟨qidOf ke.2.1 ke.1 ke.2.2, correctForIrt ke.2.2⟩)

/-- The `difficulty_params` dict of `compute_competency_analysis`: each
question id mapped (once) to the default parameters. -/
def irtParamsOf (obs : List Obs) : List (String × DiffP) :=
  obs.foldl (fun ps o =>
    if (ps.lookup o.questionId).isSome then ps else ps ++ [(o.questionId, ⟨1, 0, 1/4⟩)]) []

/-- `pct = (score / max(total, 1)) * 100` of the per-topic loop. -/
def pctOf (e : QuizEntry) : ℚ := e.score / max e.total 1 * 100

/-- `correct = pct >= 50` of the per-topic loop. -/
def entryCorrect (e : QuizEntry) : Bool := decide (pctOf e ≥ 50)

/-- One per-topic `CompetencyAnalysis` record. -/
structure CompetencyAnalysis where
  topicId : String
  topicName : String
  efficiencyScore : ℚ
  competencyLevel : String
  masteryPercentage : ℚ
  learningVelocity : ℚ
  totalAttempts : ℕ
  averageAccuracy : ℚ
  lastAttemptDate : Option String
deriving DecidableEq

/-- The body of the per-topic loop of `compute_competency_analysis`.  The
loop's scalar accumulators are written as counts over the group, its list
accumulators as maps over the group — both preserve the loop's order and
values exactly.  The `getD 0` on the efficiency score models the
(unreachable here, see `analyzeTopic_eff_isSome`) exception case. -/
def analyzeTopic (ext : Ext) (t : String) (es : List QuizEntry) : CompetencyAnalysis :=
  let total_count := es.length
  let correct_count := es.countP entryCorrect
  let first_attempt_correct := es.countP (fun e => decide (e.attempts ≤ 1) && entryCorrect e)
  let first_attempt_total := es.length
  let times := es.map timeOf
  let accuracies := es.map entryCorrect
  let attempt_counts := es.map (fun e => max e.attempts 1)
  let scores_over_time := es.filterMap (fun e => (tsOf e).map (fun ts => (ts / 86400, pctOf e)))
  let avg_accuracy := (correct_count : ℚ) / ((max total_count 1 : ℕ) : ℚ) * 100
  let mastery_pct := (first_attempt_correct : ℚ) / ((max first_attempt_total 1 : ℕ) : ℚ) * 100
  let class_avg_time := if times = [] then 60 else times.sum / (times.length : ℚ)
  let efficiency := (calculate_efficiency_score times accuracies class_avg_time attempt_counts).getD 0
  let velocity := _calculate_learning_velocity ext scores_over_time
  let competency_level := _get_competency_level avg_accuracy
  let last_date := if scores_over_time = [] then none
      else some (ext.isoOfTs (listMaxQ (scores_over_time.map (·.1)) * 86400))
  ⟨t, pyTitle (pyReplaceUnderscores t), efficiency, competency_level, pyRound 2 mastery_pct,
   velocity, total_count, pyRound 2 avg_accuracy, last_date⟩

/-- `CompetencyAnalysisResponse`. -/
structure CompetencyAnalysisResponse where
  studentId : String
  status : String
  analyses : List CompetencyAnalysis
  overallCompetency : Option String
  thetaEstimate : Option ℚ
deriving DecidableEq

def MIN_QUIZ_ATTEMPTS_FOR_COMPETENCY : ℕ := 3

/-- `compute_competency_analysis`.  `List.insertionSort` implements
Python's stable ascending `list.sort(key=...)`. -/
def compute_competency_analysis (ext : Ext) (student_id : String)
    (quiz_history : List QuizEntry) (topic_filter : Option String) :
    CompetencyAnalysisResponse :=
  if quiz_history.length < MIN_QUIZ_ATTEMPTS_FOR_COMPETENCY then
    ⟨student_id, "insufficient_data", [], none, none⟩
  else
    let topic_data := groupByTopic topic_filter quiz_history
    if topic_data = [] then ⟨student_id, "insufficient_data", [], none, none⟩
    else
      let all_responses := irtObsOf topic_data
      let theta := _estimate_theta ext all_responses (irtParamsOf all_responses)
      let analyses0 := topic_data.map (fun g => analyzeTopic ext g.1 g.2)
      let analyses := List.insertionSort
        (fun a b => a.efficiencyScore ≤ b.efficiencyScore) analyses0
      let overall := if analyses = [] then none
        else some (_get_competency_level
          ((analyses.map (·.efficiencyScore)).sum / (analyses.length : ℚ)))
      ⟨student_id, "success", analyses, overall, some theta⟩

/-- Modelled from the spec (for claim C1): "`masteryPercentage` = fraction
of first attempts (attemptsCount ≤ 1) that were correct", as a percentage.
This is the claim's reading, to be compared with the source's computation. -/
def masteryPercentage_claimed (es : List QuizEntry) : ℚ :=
  100 * (es.countP (fun e => decide (e.attempts ≤ 1) && entryCorrect e) : ℚ) /
    (es.countP (fun e => decide (e.attempts ≤ 1)) : ℚ)

/-! ### Risk Classifier (`_rule_based_risk` / `predict_risk_enhanced`) -/

/-- `EnhancedRiskRequest` (the pydantic optional fields keep their
optionality; a present `None` and an absent key behave alike here). -/
structure EnhancedRiskRequest where
  studentId : String
  engagementScore : ℚ
  avgQuizScore : ℚ
  attendance : ℚ
  assignmentCompletion : ℚ
  streak : Option ℤ
  xpGrowthRate : Option ℚ
  timeOnPlatform : Option ℚ
  engagementTrend7d : Option ℚ
  quizScoreVariance : Option ℚ
  consecutiveAbsences : Option ℤ
  daysSinceLastActivity : Option ℤ
deriving DecidableEq

/-- One contributing-factor dict (`value` is present only on the ML path). -/
structure RiskFactor where
  feature : String
  impact : ℚ
  value : Option ℚ
  detail : String
deriving DecidableEq

/-- `EnhancedRiskPrediction` (the probability dict as an ordered
association list). -/
structure EnhancedRiskPrediction where
  riskLevel : String
  confidence : ℚ
  probabilities : List (String × ℚ)
  contributingFactors : List RiskFactor
  recommendations : List String
  modelUsed : String
deriving DecidableEq

/-- `_rule_based_risk`. -/
def _rule_based_risk (data : EnhancedRiskRequest) : EnhancedRiskPrediction :=
  let score0 := data.engagementScore * (25/100) + data.avgQuizScore * (30/100)
      + data.attendance * (25/100) + data.assignmentCompletion * (20/100)
  let score1 := if pyOrZ data.consecutiveAbsences ≥ 3 then score0 - 10 else score0
  let score2 := if pyOrZ data.daysSinceLastActivity ≥ 7 then score1 - 10 else score1
  let score3 := if pyOrZ data.streak = 0 then score2 - 5 else score2
  let score4 := if pyOrZ data.streak ≥ 7 then score3 + 5 else score3
  let score5 := if pyOrQ data.engagementTrend7d > 0 then score4 + 5 else score4
  let score := max 0 (min 100 score5)
  let rl : String × List (String × ℚ) :=
    if score ≥ 70 then ("Low", [("High", 5/100), ("Medium", 15/100), ("Low", 80/100)])
    else if score ≥ 45 then ("Medium", [("High", 15/100), ("Medium", 55/100), ("Low", 30/100)])
    else ("High", [("High", 70/100), ("Medium", 20/100), ("Low", 10/100)])
  let factors0 : List RiskFactor :=
    (if data.avgQuizScore < 50 then
      [⟨"avgQuizScore", -(3/10), none, "Low quiz scores"⟩] else [])
    ++ (if data.attendance < 60 then
      [⟨"attendance", -(25/100), none, "Poor attendance"⟩] else [])
    ++ (if data.engagementScore < 40 then
      [⟨"engagementScore", -(2/10), none, "Low engagement"⟩] else [])
    ++ (if pyOrZ data.consecutiveAbsences ≥ 3 then
      [⟨"consecutiveAbsences", -(15/100), none, "Multiple consecutive absences"⟩] else [])
    ++ (if data.assignmentCompletion < 50 then
      [⟨"assignmentCompletion", -(2/10), none, "Low assignment completion"⟩] else [])
  let factors := if factors0 = [] then
      [⟨"overall", 0, none, "No major risk factors identified"⟩] else factors0
  let recommendations : List String :=
    if rl.1 = "High" then
      ["Schedule immediate one-on-one check-in with student",
       "Set up tutoring sessions for weak subjects",
       "Contact parent/guardian about academic concerns",
       "Create a structured study plan with daily goals"]
    else if rl.1 = "Medium" then
      ["Monitor progress closely over next 2 weeks",
       "Encourage participation in study groups",
       "Assign additional practice exercises for weak areas"]
    else
      ["Continue current learning approach",
       "Challenge with advanced material when ready"]
  ⟨rl.1, pyRound 3 (listMaxQ (rl.2.map (·.2))), rl.2, factors.take 3, recommendations,
   "rule_based"⟩

def RISK_FEATURE_NAMES : List String :=
  ["engagementScore", "avgQuizScore", "attendance", "assignmentCompletion", "streak",
   "xpGrowthRate", "timeOnPlatform", "engagementTrend7d", "quizScoreVariance",
   "consecutiveAbsences", "daysSinceLastActivity"]

/-- `_build_risk_features` (the single row of the feature matrix). -/
def _build_risk_features (data : EnhancedRiskRequest) : List ℚ :=
  [data.engagementScore, data.avgQuizScore, data.attendance, data.assignmentCompletion,
   (pyOrZ data.streak : ℚ), pyOrQ data.xpGrowthRate, pyOrQ data.timeOnPlatform,
   pyOrQ data.engagementTrend7d, pyOrQ data.quizScoreVariance,
   (pyOrZ data.consecutiveAbsences : ℚ), (pyOrZ data.daysSinceLastActivity : ℚ)]

/-- The behaviour of a loaded risk-model artifact and of its explanation
libraries, as visible to `predict_risk_enhanced`.  `raisesOutsideShap`
models an exception thrown anywhere in the `try` body outside the inner
SHAP `try` (e.g. by `model.predict`); `shapRaises` one thrown inside it.
`shapValues` are the SHAP values for the predicted class. -/
structure MLModel where
  raisesOutsideShap : Bool
  prediction : ℤ
  probabilitiesRaw : List ℚ
  hasShap : Bool
  shapRaises : Bool
  shapValues : List ℚ
  hasFeatureImportances : Bool
  featureImportances : List ℚ
deriving DecidableEq

/-- `predict_risk_enhanced`.  `model = none` models a missing artifact
(`_load_risk_model()` returned `None`); the two guard branches reproduce
the `except` fallback (`max()` of an empty probability row raises, hence
the second guard).  Sorting with `reverse=True` is Python's stable
descending sort, here `List.insertionSort` with the flipped comparison. -/
def predict_risk_enhanced (model : Option MLModel) (data : EnhancedRiskRequest) :
    EnhancedRiskPrediction :=
  match model with
  | none => _rule_based_risk data
  | some m =>
    if m.raisesOutsideShap then _rule_based_risk data
    else if m.probabilitiesRaw = [] then _rule_based_risk data
    else
      let features := _build_risk_features data
      let label_map : List (ℤ × String) := [(0, "High"), (1, "Medium"), (2, "Low")]
      let risk_level := ((label_map.lookup m.prediction).getD "Medium")
      let probs := label_map.map (fun il =>
        (il.2, if il.1.toNat < m.probabilitiesRaw.length
               then pyRound 4 (m.probabilitiesRaw.getD il.1.toNat 0) else 0))
      let confidence := pyRound 4 (listMaxQ m.probabilitiesRaw)
      let factors : List RiskFactor :=
        if m.hasShap then
          if m.shapRaises then [⟨"model_prediction", 0, none, "SHAP unavailable"⟩]
          else
            let feature_impacts := RISK_FEATURE_NAMES.zip m.shapValues
            let sorted := List.insertionSort (fun x y => |y.2| ≤ |x.2|) feature_impacts
            (sorted.take 3).map (fun fi =>
              let idx := RISK_FEATURE_NAMES.indexOf fi.1
              let fval := features.getD idx 0
              ⟨fi.1, pyRound 4 fi.2, some (pyRound 2 fval),
               fi.1 ++ " = " ++ fmtFixed 1 fval ++ " (SHAP impact: " ++ fmtFixed 3 fi.2 ++ ")"⟩)
        else if m.hasFeatureImportances then
          let fi0 := RISK_FEATURE_NAMES.zip m.featureImportances
          let sorted := List.insertionSort (fun x y => y.2 ≤ x.2) fi0
          (sorted.take 3).map (fun p =>
            let idx := RISK_FEATURE_NAMES.indexOf p.1
            let fval := features.getD idx 0
            ⟨p.1, pyRound 4 p.2, some (pyRound 2 fval),
             p.1 ++ " = " ++ fmtFixed 1 fval ++ " (importance: " ++ fmtFixed 3 p.2 ++ ")"⟩)
        else []
      let recommendations : List String :=
        if risk_level = "High" then
          ["Immediate intervention recommended — schedule one-on-one session",
           "Review recent quiz performance for specific skill gaps",
           "Contact parent/guardian about academic concerns",
           "Create personalised remediation plan"]
        else if risk_level = "Medium" then
          ["Monitor student progress more frequently",
           "Assign targeted practice for weak areas",
           "Encourage peer study groups"]
        else
          ["Student is performing well — maintain current pace",
           "Consider enrichment activities for advanced topics"]
      ⟨risk_level, confidence, probs, factors, recommendations, "ml_model"⟩

/-! ### Difficulty Calibrator (`calibrate_question_difficulty`) -/

/-- One student response in a calibration batch, the `.get` defaults
(`correct` ↦ `False`, `timeSpent` ↦ `60`) already applied. -/
structure CalibEntry where
  correct : Bool
  timeSpent : ℚ
deriving DecidableEq

/-- `CalibrateDifficultyResponse`.  The difficulty parameter is a real
number because it is a rounded logarithm. -/
structure CalibResponse where
  questionId : String
  difficultyParameter : ℝ
  discriminationParameter : ℚ
  guessingParameter : ℚ
  difficultyLabel : String
  totalResponses : ℕ
  successRate : ℚ

/-- Round half to even on a real (Python `round` on the exact value). -/
noncomputable def rndHER (x : ℝ) : ℤ :=
  if x - (⌊x⌋ : ℝ) < 1/2 then ⌊x⌋
  else if 1/2 < x - (⌊x⌋ : ℝ) then ⌊x⌋ + 1
  else if ⌊x⌋ % 2 = 0 then ⌊x⌋ else ⌊x⌋ + 1

/-- Python's `round(x, n)` on a real value. -/
noncomputable def pyRoundR (n : ℕ) (x : ℝ) : ℝ := (rndHER (x * 10 ^ n) : ℝ) / 10 ^ n

/-- `calibrate_question_difficulty`; `none` models the `ValueError` raised
on an empty response list.  `sorted(times)[len(times)//2]` is the median
split; `b = round(log((1-p)/p), 3)` with `p` the clamped success rate. -/
noncomputable def calibrate_question_difficulty (questionId : String)
    (responses : List CalibEntry) : Option CalibResponse :=
  if responses = [] then none
  else
    let correct_count := responses.countP (·.correct)
    let total := responses.length
    let success_rate : ℚ := (correct_count : ℚ) / (total : ℚ)
    let p : ℚ := max (1/100) (min (99/100) success_rate)
    let b : ℝ := pyRoundR 3 (Real.log ((1 - (p : ℝ)) / (p : ℝ)))
    let a : ℚ :=
      if 4 ≤ responses.length then
        let times := responses.map (·.timeSpent)
        let median_time := (List.insertionSort (fun x y => x ≤ y) times).getD (times.length / 2) 0
        let fast_correct := responses.countP (fun r => r.correct && decide (r.timeSpent ≤ median_time))
        let fast_total := responses.countP (fun r => decide (r.timeSpent ≤ median_time))
        let slow_correct := responses.countP (fun r => r.correct && decide (r.timeSpent > median_time))
        let slow_total := responses.countP (fun r => decide (r.timeSpent > median_time))
        let p_fast : ℚ := (fast_correct : ℚ) / ((max fast_total 1 : ℕ) : ℚ)
        let p_slow : ℚ := (slow_correct : ℚ) / ((max slow_total 1 : ℕ) : ℚ)
        pyRound 3 (max (3/10) (min 3 ((p_fast - p_slow) * 3 + 1)))
      else 1
    let diff_label := if b < -1 then "easy" else if b < 1 then "medium" else "hard"
    some ⟨questionId, b, a, 1/4, diff_label, total, pyRound 4 success_rate⟩

/-! ### Adaptive Quiz Selector (`select_adaptive_quiz`) -/

/-- The running / target per-difficulty counters. -/
structure SelCounts where
  easy : ℕ
  medium : ℕ
  hard : ℕ
deriving DecidableEq

def countOf (c : SelCounts) (l : String) : ℕ :=
  if l = "easy" then c.easy else if l = "medium" then c.medium else c.hard

def bumpCount (c : SelCounts) (l : String) : SelCounts :=
  if l = "easy" then ⟨c.easy + 1, c.medium, c.hard⟩
  else if l = "medium" then ⟨c.easy, c.medium + 1, c.hard⟩
  else ⟨c.easy, c.medium, c.hard + 1⟩

/-- The easy/medium/hard classification thresholds (shared by the
calibrator and the selector). -/
def labelOfQ (b : ℚ) : String :=
  if b < -1 then "easy" else if b < 1 then "medium" else "hard"

/-- The fixed difficulty-distribution lookup table, with
`distributions.get(level, distributions["developing"])` applied. -/
def distFor (level : String) : ℚ × ℚ × ℚ :=
  if level = "beginner" then (7/10, 2/10, 1/10)
  else if level = "developing" then (4/10, 4/10, 2/10)
  else if level = "proficient" then (2/10, 4/10, 4/10)
  else if level = "advanced" then (1/10, 3/10, 6/10)
  else (4/10, 4/10, 2/10)

/-- `target_counts`: rounded per-difficulty quotas, the hard bucket
absorbing the remainder. -/
def targetCountsOf (n : ℕ) (de dm dh : ℚ) : SelCounts :=
  let te := (max 1 (rndHE ((n : ℚ) * de))).toNat
  let tm := (max 1 (rndHE ((n : ℚ) * dm))).toNat
  let th := (max 0 ((n : ℤ) - te - tm)).toNat
  ⟨te, tm, th⟩

/-- The untouched walking difficulty for question `i`: the first two at the
student's level, then cycling slightly-easier / at-level / slightly-harder. -/
def natB (theta : ℚ) (i : ℕ) : ℚ :=
  if i < 2 then theta
  else if i % 3 = 0 then theta - 1/2
  else if i % 3 = 1 then theta
  else theta + 1/2

/-- `max(remaining, key=remaining.get)` over the remaining quotas: Python's
`max` over the dict in easy/medium/hard insertion order returns the first
maximum (the differences are Python ints, hence `ℤ`). -/
def argmaxLabel (tc c : SelCounts) : String :=
  if (tc.easy : ℤ) - (c.easy : ℤ) ≥ (tc.medium : ℤ) - (c.medium : ℤ) ∧
      (tc.easy : ℤ) - (c.easy : ℤ) ≥ (tc.hard : ℤ) - (c.hard : ℤ) then "easy"
  else if (tc.medium : ℤ) - (c.medium : ℤ) ≥ (tc.hard : ℤ) - (c.hard : ℤ) then "medium"
  else "hard"

/-- The difficulty bucket question `i` is charged to: its walking
difficulty's label, unless that bucket's quota is met, in which case the
bucket with the most remaining quota. -/
def selLabel (tc c : SelCounts) (b : ℚ) : String :=
  if countOf c (labelOfQ b) ≥ countOf tc (labelOfQ b) then argmaxLabel tc c
  else labelOfQ b

/-- The emitted difficulty value: the walking `b`, clamped to the easy/hard
threshold when the question was reassigned to that bucket. -/
def selB (tc c : SelCounts) (b : ℚ) : ℚ :=
  if countOf c (labelOfQ b) ≥ countOf tc (labelOfQ b) then
    if argmaxLabel tc c = "easy" then min b (-1)
    else if argmaxLabel tc c = "hard" then max b 1
    else b
  else b

/-- One iteration of the selection loop of `select_adaptive_quiz`. -/
def selStep (tc : SelCounts) (theta : ℚ) (st : SelCounts × List (ℚ × String)) (i : ℕ) :
    SelCounts × List (ℚ × String) :=
  (bumpCount st.1 (selLabel tc st.1 (natB theta i)),
   st.2 ++ [(selB tc st.1 (natB theta i), selLabel tc st.1 (natB theta i))])

/-- The selection loop of `select_adaptive_quiz`: final counters together
with the per-question `(b, difficultyLabel)` trace. -/
def selTrace (theta : ℚ) (n : ℕ) (tc : SelCounts) : SelCounts × List (ℚ × String) :=
  (List.range n).foldl (selStep tc theta) (⟨0, 0, 0⟩, [])

structure AdaptiveQuizSelection where
  questionId : String
  estimatedDifficulty : ℚ
  predictedSuccessProbability : ℝ
  difficultyLabel : String

structure AdaptiveQuizResponse where
  studentId : String
  topicId : String
  selectedQuestions : List AdaptiveQuizSelection
  studentAbilityEstimate : ℚ
  expectedSuccessRate : ℝ
  difficultyDistribution : SelCounts

/-- The selection part of `select_adaptive_quiz`, from the point where the
student's `theta` for the topic is known (lines 1280-1359 of the source). -/
noncomputable def select_adaptive_quiz_core (studentId topicId : String) (theta : ℚ)
    (n : ℕ) : AdaptiveQuizResponse :=
  let competency_level := _get_competency_level ((theta + 4) / 8 * 100)
  let dist := distFor competency_level
  let tc := targetCountsOf n dist.1 dist.2.1 dist.2.2
  let tr := selTrace theta n tc
  let selected := tr.2.enum.map (fun ibl =>
    ⟨topicId ++ "_q" ++ toString (ibl.1 + 1), pyRound 3 ibl.2.1,
     pyRoundR 3 (_irt_3pl_probability (theta : ℝ) 1 (ibl.2.1 : ℝ) (1/4)), ibl.2.2⟩)
  let avg : ℝ := (selected.map (·.predictedSuccessProbability)).sum /
      ((max selected.length 1 : ℕ) : ℝ)
  ⟨studentId, topicId, selected, pyRound 3 theta, pyRoundR 3 avg, tr.1⟩

/-- The raw Python value of `e.get("topicId") or e.get("topic")` (which can
be a string, the empty string, or `None`). -/
def topicChainRaw (e : QuizEntry) : Option String :=
  match e.topicId with
  | some s => if s = "" then e.topic else some s
  | none => e.topic

/-- `select_adaptive_quiz`, with the Firestore quiz history passed in. -/
noncomputable def select_adaptive_quiz (ext : Ext) (studentId topicId : String)
    (numQuestions : ℕ) (quiz_history : List QuizEntry) : AdaptiveQuizResponse :=
  let topic_entries := quiz_history.filter (fun e =>
    match topicChainRaw e with
    | some s => s = topicId
    | none => false)
  let theta :=
    if topic_entries = [] then 0
    else
      let obs := topic_entries.enum.map (fun ie =>
        (⟨ie.2.questionId.getD ("q_" ++ toString ie.1), correctForIrt ie.2⟩ : Obs))
      _estimate_theta ext obs (obs.map (fun o => (o.questionId, (⟨1, 0, 1/4⟩ : DiffP))))
  select_adaptive_quiz_core studentId topicId theta numQuestions

/-! ### Topic Recommendation Engine (`recommend_topics`) -/

structure TopicRecommendation where
  topicId : String
  topicName : String
  recommendationScore : ℚ
  reasoning : String
  estimatedTimeToMastery : ℤ
  prerequisitesMet : Bool
  currentCompetency : String
deriving DecidableEq

structure TopicRecommendationResponse where
  studentId : String
  recommendations : List TopicRecommendation
  status : String
deriving DecidableEq

/-- The static topic prerequisite graph `TOPIC_PREREQUISITES`. -/
def TOPIC_PREREQUISITES : List (String × List String) :=
  [("Quadratic Equations", ["Linear Equations", "Variables & Expressions"]),
   ("Systems of Equations", ["Linear Equations", "Slope & Rate of Change"]),
   ("Polynomials", ["Variables & Expressions", "Exponents & Powers"]),
   ("Factoring", ["Polynomials", "Variables & Expressions"]),
   ("Quadratic Functions", ["Quadratic Equations", "Functions"]),
   ("Exponential Functions", ["Exponents & Powers", "Functions"]),
   ("Trigonometric Ratios", ["Pythagorean Theorem", "Angles", "Triangles"]),
   ("Trigonometric Functions", ["Trigonometric Ratios", "Functions"]),
   ("Derivatives", ["Limits", "Functions"]),
   ("Integration", ["Derivatives", "Area Under a Curve"]),
   ("Limits", ["Functions", "Rational Expressions"]),
   ("Coordinate Geometry", ["Linear Equations", "Slope & Rate of Change"]),
   ("Circle Theorems", ["Circles", "Angles"]),
   ("Logarithmic Functions", ["Exponential Functions"]),
   ("Rational Functions", ["Polynomials", "Factoring"]),
   ("Complex Numbers", ["Quadratic Equations", "Radicals & Exponents"]),
   ("Matrices (Introduction)", ["Systems of Equations"]),
   ("Conic Sections", ["Coordinate Geometry", "Quadratic Functions"]),
   ("Probability of Compound Events", ["Probability Basics"]),
   ("Permutations & Combinations", ["Probability Basics", "Factorial"]),
   ("Hypothesis Testing Basics", ["Normal Distribution Basics", "Sampling Methods"]),
   ("Confidence Intervals", ["Normal Distribution Basics", "Sampling Methods"]),
   ("Regression Analysis", ["Scatter Plots", "Linear Functions"]),
   ("Statistical Inference", ["Hypothesis Testing Basics", "Confidence Intervals"]),
   ("Multivariable Calculus", ["Derivatives", "Integration"]),
   ("Differential Equations", ["Derivatives", "Integration"]),
   ("Vector Calculus", ["Multivariable Calculus", "Vectors"]),
   ("Linear Transformations", ["Matrices & Determinants", "Vector Spaces"]),
   ("Eigenvalues & Eigenvectors", ["Matrices & Determinants"])]

/-- The three hard-coded cold-start recommendations. -/
def coldStartRecs : List TopicRecommendation :=
  [⟨"Variables & Expressions", "Variables & Expressions", 95,
    "Foundational topic essential for all algebra. Start here to build a strong base.",
    3, true, "not_attempted"⟩,
   ⟨"Integers", "Integers", 90,
    "Core number sense topic needed for all math areas.",
    2, true, "not_attempted"⟩,
   ⟨"Fractions & Decimals", "Fractions & Decimals", 85,
    "Understanding fractions is critical for algebra and calculus.",
    4, true, "not_attempted"⟩]

/-- `topic_competencies[topic]` (topic ids are unique across analyses). -/
def compLookup (analyses : List CompetencyAnalysis) (t : String) : Option CompetencyAnalysis :=
  analyses.find? (fun a => a.topicId == t)

/-- First-occurrence deduplication; models the candidate `set` of
`recommend_topics`, whose iteration order Python leaves unspecified and on
which only membership is relied. -/
def dedupStr (l : List String) : List String :=
  l.foldl (fun acc s => if s ∈ acc then acc else acc ++ [s]) []

/-- The body of the per-topic scoring loop of `recommend_topics`; `none`
is the `continue` for already-mastered (advanced) topics. -/
def scoreTopic (ext : Ext) (analyses : List CompetencyAnalysis)
    (dependencies : List (String × List String)) (topic : String) :
    Option TopicRecommendation :=
  let comp := compLookup analyses topic
  let current_level := match comp with
    | some c => c.competencyLevel
    | none => "not_attempted"
  let current_score : ℚ := match comp with
    | some c => c.averageAccuracy
    | none => 0
  if current_level = "advanced" then none
  else
    let weakness_score : ℚ :=
      if current_level = "not_attempted" then 70
      else if current_level = "beginner" then 100 - current_score
      else if current_level = "developing" then 80 - current_score * (1/2)
      else 40 - current_score * (3/10)
    let prereqs := (dependencies.lookup topic).getD []
    let prereq_scores := prereqs.map (fun p =>
      match compLookup analyses p with
      | some pc => pc.averageAccuracy
      | none => 0)
    let prereq_avg : ℚ :=
      if prereqs = [] then 100
      else if prereq_scores = [] then 0
      else prereq_scores.sum / (prereq_scores.length : ℚ)
    let prereqs_met := if prereqs = [] then true
      else prereq_scores.all (fun s => decide (s ≥ 50))
    let days_since : ℤ := match comp with
      | some c => match c.lastAttemptDate with
        | some s => if s = "" then 30 else (ext.parseDays s).getD 30
        | none => 30
      | none => 30
    let recency_score : ℚ := min (days_since : ℚ) 60
    let total_score0 := weakness_score * (4/10) + prereq_avg * (3/10)
      + recency_score * (2/10) + (if prereqs_met then (10 : ℚ) else 0) * (1/10)
    let total_score := if prereqs_met then total_score0 else total_score0 * (6/10)
    let est_hours : ℤ :=
      if current_level = "not_attempted" then 8
      else if current_level = "beginner" then 6
      else if current_level = "developing" then 4
      else 2
    let reasons : List String :=
      (if current_level = "beginner" ∨ current_level = "not_attempted" then
        ["Currently at " ++ current_level ++ " level — focused practice will build foundation"]
      else if current_level = "developing" then
        ["Developing competency (" ++ fmtFixed 0 current_score
          ++ "% accuracy) — close to proficiency with more practice"]
      else
        ["Proficient but not yet mastered (" ++ fmtFixed 0 current_score ++ "% accuracy)"])
      ++ (if ¬ prereqs_met ∧ prereqs ≠ [] then
        ["Note: prerequisites (" ++ String.intercalate ", " prereqs
          ++ ") not fully met — complete those first"]
      else if prereqs ≠ [] ∧ prereqs_met then ["All prerequisites are met"] else [])
      ++ (match comp with
        | some c =>
          if c.learningVelocity > 0 then
            ["Positive learning trend (velocity: " ++ fmtSigned 3 c.learningVelocity ++ ")"]
          else if c.learningVelocity < 0 then
            ["Declining performance detected — review recommended"]
          else []
        | none => [])
      ++ (if days_since > 14 then
        ["Not practiced in " ++ toString days_since ++ " days — review to prevent forgetting"]
      else [])
    some ⟨topic, pyTitle (pyReplaceUnderscores topic), pyRound 2 total_score,
      String.intercalate ". " reasons ++ ".", est_hours, prereqs_met, current_level⟩

/-- `recommend_topics`, with the Firestore quiz history passed in.  The
descending stable sort is Python's `sort(key=..., reverse=True)`. -/
def recommend_topics (ext : Ext) (studentId : String) (numRecommendations : ℕ)
    (quiz_history : List QuizEntry) : TopicRecommendationResponse :=
  if quiz_history = [] then
    ⟨studentId, coldStartRecs.take numRecommendations, "cold_start"⟩
  else
    let comp := compute_competency_analysis ext studentId quiz_history none
    let dependencies := TOPIC_PREREQUISITES
    let all_topics := dedupStr ((comp.analyses.map (·.topicId))
      ++ (dependencies.map (·.1)) ++ (dependencies.map (·.2)).flatten)
    let scored_topics := all_topics.filterMap (scoreTopic ext comp.analyses dependencies)
    let sorted := List.insertionSort
      (fun a b => b.recommendationScore ≤ a.recommendationScore) scored_topics
    ⟨studentId, sorted.take numRecommendations, "success"⟩

/-! ### Helper lemmas -/

/-- A sample instantiation of the external collaborators (the bounded
minimiser returns a point inside its bounds; the remaining fields are
arbitrary), used to evaluate claims on concrete inputs. -/
def dummyExt : Ext := ⟨fun _ _ => 2, fun _ => 0, fun _ => "", fun _ => none⟩

theorem rndHE_le {x : ℚ} {m : ℤ} (h : x ≤ (m : ℚ)) : rndHE x ≤ m := by
  have hf : ⌊x⌋ ≤ m := by
    have h2 : ⌊x⌋ ≤ ⌊(m : ℚ)⌋ := Int.floor_le_floor h
    simpa using h2
  have hfr : (⌊x⌋ : ℚ) ≤ x := Int.floor_le x
  unfold rndHE
  split_ifs with h1 h2 h3
  · exact hf
  · have hlt : (⌊x⌋ : ℚ) < (m : ℚ) := by linarith
    have : ⌊x⌋ < m := by exact_mod_cast hlt
    omega
  · exact hf
  · have hge : 1/2 ≤ x - (⌊x⌋ : ℚ) := by
      push_neg at h1
      exact h1
    have hlt : (⌊x⌋ : ℚ) < (m : ℚ) := by linarith
    have : ⌊x⌋ < m := by exact_mod_cast hlt
    omega

theorem le_rndHE {x : ℚ} {m : ℤ} (h : (m : ℚ) ≤ x) : m ≤ rndHE x := by
  have hf : m ≤ ⌊x⌋ := Int.le_floor.mpr h
  unfold rndHE
  split_ifs <;> omega

theorem pyRound_bound {x : ℚ} {m : ℕ} (n : ℕ) (hlo : -(m : ℚ) ≤ x)
    (hhi : x ≤ (m : ℚ)) : -(m : ℚ) ≤ pyRound n x ∧ pyRound n x ≤ (m : ℚ) := by
  have hp : (0 : ℚ) < (10 : ℚ) ^ n := by positivity
  have h1 : rndHE (x * 10 ^ n) ≤ (m : ℤ) * 10 ^ n := by
    apply rndHE_le
    push_cast
    exact mul_le_mul_of_nonneg_right hhi (le_of_lt hp)
  have h2 : -((m : ℤ) * 10 ^ n) ≤ rndHE (x * 10 ^ n) := by
    apply le_rndHE
    push_cast
    nlinarith [mul_le_mul_of_nonneg_right hlo (le_of_lt hp)]
  constructor
  · unfold pyRound
    rw [le_div_iff hp]
    calc -(m : ℚ) * 10 ^ n = ((-((m : ℤ) * 10 ^ n) : ℤ) : ℚ) := by push_cast; ring
      _ ≤ ((rndHE (x * 10 ^ n) : ℤ) : ℚ) := by exact_mod_cast h2
  · unfold pyRound
    rw [div_le_iff hp]
    calc ((rndHE (x * 10 ^ n) : ℤ) : ℚ) ≤ (((m : ℤ) * 10 ^ n : ℤ) : ℚ) := by
          exact_mod_cast h1
      _ = (m : ℚ) * 10 ^ n := by push_cast; ring

theorem cacheLookup_set {α : Type} (c : CacheMap α) (k : String) (v : α) (t : ℚ) :
    cacheLookup (cache_set c k v t) k = some (t, v) := by
  induction c with
  | nil => simp [cache_set, cacheLookup]
  | cons e rest ih =>
      obtain ⟨k', ts', v'⟩ := e
      by_cases h : k' = k
      · simp [cache_set, cacheLookup, h]
      · simp [cache_set, cacheLookup, h, ih]

theorem cacheLookup_del {α : Type} (c : CacheMap α) (k : String) :
    cacheLookup (cacheDel c k) k = none := by
  induction c with
  | nil => simp [cacheDel, cacheLookup]
  | cons e rest ih =>
      obtain ⟨k', ts', v'⟩ := e
      by_cases h : k' = k
      · simpa [cacheDel, h] using ih
      · simpa [cacheDel, cacheLookup, h] using ih

/-- Claim C9: after `set(k, v)` at time `t`, a `get(k, ttl)` performed at a
time `t'` with less than `ttl` seconds elapsed returns `v`; once `ttl`
seconds have elapsed it returns absent and the entry is no longer in the
cache. -/
theorem C9_cache_roundtrip {α : Type} (cache : CacheMap α) (k : String) (v : α)
    (ttl t tq : ℚ) (httl : 0 < ttl) :
    (tq - t < ttl → (cache_get (cache_set cache k v t) k ttl tq).1 = some v) ∧
    (ttl ≤ tq - t →
      (cache_get (cache_set cache k v t) k ttl tq).1 = none ∧
      cacheLookup (cache_get (cache_set cache k v t) k ttl tq).2 k = none) := by
  have hl := cacheLookup_set cache k v t
  constructor
  · intro hfresh
    simp [cache_get, hl, hfresh]
  · intro hstale
    have hnot : ¬ (tq - t < ttl) := by linarith
    refine ⟨by simp [cache_get, hl, hnot], ?_⟩
    simp [cache_get, hl, hnot, cacheLookup_del]

/-- Closed witness for C9: a fresh hit at 5 s and an expired miss (with
eviction) at 10 s for a 10-second TTL. -/
theorem C9_witness :
    (0 : ℚ) < 10 ∧
    (cache_get (cache_set ([] : CacheMap ℕ) "k" 7 0) "k" 10 5).1 = some 7 ∧
    (cache_get (cache_set ([] : CacheMap ℕ) "k" 7 0) "k" 10 10).1 = none ∧
    cacheLookup (cache_get (cache_set ([] : CacheMap ℕ) "k" 7 0) "k" 10 10).2 "k" = none := by
  refine ⟨by norm_num, ?_, ?_, ?_⟩
  · exact (C9_cache_roundtrip [] "k" 7 10 0 5 (by norm_num)).1 (by norm_num)
  · exact ((C9_cache_roundtrip [] "k" 7 10 0 10 (by norm_num)).2 (by norm_num)).1
  · exact ((C9_cache_roundtrip [] "k" 7 10 0 10 (by norm_num)).2 (by norm_num)).2

theorem zip3_length {α β γ : Type} :
    ∀ (as : List α) (bs : List β) (cs : List γ),
      (zip3 as bs cs).length = min as.length (min bs.length cs.length) := by
  intro as
  induction as with
  | nil =>
      intro bs cs
      simp [zip3]
  | cons a as ih =>
      intro bs cs
      cases bs with
      | nil => simp [zip3]
      | cons b bs =>
          cases cs with
          | nil => simp [zip3]
          | cons c cs =>
              have h := ih bs cs
              simp [zip3, h]
              omega

/-- Claim C10 (amended): `_calculate_efficiency_score` returns 50.0 when
the attempt-time list is empty or the class average time is nonpositive,
it never raises when the three lists are equally long (as at every call
site), and a nonpositive per-attempt time is treated as 1.0. -/
theorem C10_efficiency_guarded (ts : List ℚ) (accs : List Bool) (avg : ℚ)
    (counts : List ℤ) :
    (ts = [] ∨ avg ≤ 0 → calculate_efficiency_score ts accs avg counts = some 50) ∧
    (ts.length = accs.length → accs.length = counts.length →
      ∃ v, calculate_efficiency_score ts accs avg counts = some v) ∧
    (∀ (t : ℚ) (c : Bool) (a : ℤ), t ≤ 0 → perItemEff avg t c a = perItemEff avg 1 c a) := by
  refine ⟨fun h => by simp [calculate_efficiency_score, h], ?_, ?_⟩
  · intro h1 h2
    by_cases hg : ts = [] ∨ avg ≤ 0
    · exact ⟨50, by simp [calculate_efficiency_score, hg]⟩
    · have hne : ts ≠ [] := fun h => hg (Or.inl h)
      have hlen : (zip3 ts accs counts).length ≠ 0 := by
        rw [zip3_length]
        have h3 : ts.length ≠ 0 := fun hc => hne (List.length_eq_zero.mp hc)
        omega
      have hsome : (calculate_efficiency_score ts accs avg counts).isSome := by
        simp only [calculate_efficiency_score, if_neg hg, List.length_map]
        rw [if_neg hlen]
        simp
      exact Option.isSome_iff_exists.mp hsome
  · intro t c a ht
    have : ¬ ((1 : ℚ) ≤ 0) := by norm_num
    simp [perItemEff, ht, this]

/-- Counterexample to claim C10 as stated: with mismatched list lengths
(a nonempty time list but empty accuracy/attempt lists) the function
divides by `len(efficiencies) == 0`, i.e. Python raises
`ZeroDivisionError`, modelled by `none`. -/
theorem C10_counterexample :
    calculate_efficiency_score [60] [] 60 [] = none := by decide

/-- Closed witness for C10: the 50.0 default on an empty time list, a
defined value on equal-length lists, and the `t ≤ 0 ↦ 1.0` replacement. -/
theorem C10_witness :
    calculate_efficiency_score [] [true] 60 [1] = some 50 ∧
    (∃ v, calculate_efficiency_score [30] [true] 60 [1] = some v) ∧
    perItemEff 60 0 true 1 = perItemEff 60 1 true 1 := by
  refine ⟨(C10_efficiency_guarded [] [true] 60 [1]).1 (Or.inl rfl), ?_, ?_⟩
  · exact (C10_efficiency_guarded [30] [true] 60 [1]).2.1 rfl rfl
  · exact (C10_efficiency_guarded [30] [true] 60 [1]).2.2 0 true 1 (by norm_num)

/-- Claim C6: `_estimate_theta` returns exactly 0.0 on an empty observation
list, and (under scipy's contract that the bounded minimiser returns an
abscissa inside its `(-4, 4)` bounds) the returned theta lies in `[-4, 4]`
for every observation list and difficulty-parameter lookup. -/
theorem C6_estimate_theta (ext : Ext) (responses : List Obs)
    (params : List (String × DiffP))
    (hmin : -4 ≤ ext.minimize responses params ∧ ext.minimize responses params ≤ 4) :
    _estimate_theta ext [] params = 0 ∧
    (-4 ≤ _estimate_theta ext responses params ∧
      _estimate_theta ext responses params ≤ 4) := by
  refine ⟨by simp [_estimate_theta], ?_⟩
  unfold _estimate_theta
  by_cases h : responses = []
  · rw [if_pos h]
    norm_num
  · rw [if_neg h]
    have hlo : -((4 : ℕ) : ℚ) ≤ ext.minimize responses params := by
      push_cast
      exact hmin.1
    have hhi : ext.minimize responses params ≤ ((4 : ℕ) : ℚ) := by
      push_cast
      exact hmin.2
    have hb := @pyRound_bound (ext.minimize responses params) 4 3 hlo hhi
    constructor
    · have := hb.1
      push_cast at this
      exact this
    · have := hb.2
      push_cast at this
      exact this

/-- Closed witness for C6: the minimiser of `dummyExt` returns 2, inside
the bounds, and the estimate on a one-observation list is within `[-4,4]`
while the empty list yields exactly 0. -/
theorem C6_witness :
    (-4 ≤ dummyExt.minimize [⟨"q1", true⟩] [] ∧ dummyExt.minimize [⟨"q1", true⟩] [] ≤ 4) ∧
    _estimate_theta dummyExt [] [] = 0 ∧
    (-4 ≤ _estimate_theta dummyExt [⟨"q1", true⟩] [] ∧
      _estimate_theta dummyExt [⟨"q1", true⟩] [] ≤ 4) := by
  have h := C6_estimate_theta dummyExt [⟨"q1", true⟩] [] (by constructor <;> norm_num [dummyExt])
  exact ⟨by constructor <;> norm_num [dummyExt], h.1, h.2⟩

/-- Claim C4: for theta in `[-4,4]`, `a ∈ [0.3, 3.0]`, any real `b` and
`c ∈ [0, 1)`, `_irt_3pl_probability` is monotonically increasing in
`theta - b` and its value lies in `[c, 1]`.  (Monotone here is non-strict:
once the clamped exponent saturates at `±20` the value is constant.) -/
theorem C4_irt_monotone_bounded (a b c t1 t2 : ℝ)
    (ht1 : -4 ≤ t1 ∧ t1 ≤ 4) (ht2 : -4 ≤ t2 ∧ t2 ≤ 4)
    (ha : 3/10 ≤ a ∧ a ≤ 3) (hc : 0 ≤ c ∧ c < 1)
    (h12 : t1 - b ≤ t2 - b) :
    _irt_3pl_probability t1 a b c ≤ _irt_3pl_probability t2 a b c ∧
    (c ≤ _irt_3pl_probability t1 a b c ∧ _irt_3pl_probability t1 a b c ≤ 1) := by
  have hapos : (0 : ℝ) < a := lt_of_lt_of_le (by norm_num) ha.1
  have hcle : (0 : ℝ) ≤ 1 - c := by linarith [hc.2]
  have hexp1 : ∀ x : ℝ, (0 : ℝ) < 1 + Real.exp (max (-20) (min 20 (-a * (x - b)))) :=
    fun x => by positivity
  constructor
  · have hmul : -a * (t2 - b) ≤ -a * (t1 - b) := by nlinarith
    have hclamp : max (-20 : ℝ) (min 20 (-a * (t2 - b))) ≤
        max (-20 : ℝ) (min 20 (-a * (t1 - b))) :=
      max_le_max (le_refl _) (min_le_min (le_refl _) hmul)
    have hexple : Real.exp (max (-20 : ℝ) (min 20 (-a * (t2 - b)))) ≤
        Real.exp (max (-20 : ℝ) (min 20 (-a * (t1 - b)))) := Real.exp_le_exp.mpr hclamp
    show c + (1 - c) / (1 + Real.exp (max (-20) (min 20 (-a * (t1 - b))))) ≤
        c + (1 - c) / (1 + Real.exp (max (-20) (min 20 (-a * (t2 - b)))))
    have := hexp1 t2
    gcongr
  · constructor
    · show c ≤ c + (1 - c) / (1 + Real.exp (max (-20) (min 20 (-a * (t1 - b)))))
      have h1 := hexp1 t1
      have : (0 : ℝ) ≤ (1 - c) / (1 + Real.exp (max (-20) (min 20 (-a * (t1 - b))))) :=
        div_nonneg hcle (le_of_lt h1)
      linarith
    · show c + (1 - c) / (1 + Real.exp (max (-20) (min 20 (-a * (t1 - b))))) ≤ 1
      have hx := Real.exp_pos (max (-20 : ℝ) (min 20 (-a * (t1 - b))))
      have hden : (1 : ℝ) ≤ 1 + Real.exp (max (-20) (min 20 (-a * (t1 - b)))) := by
        linarith
      have hfr : (1 - c) / (1 + Real.exp (max (-20) (min 20 (-a * (t1 - b))))) ≤ 1 - c := by
        calc (1 - c) / (1 + Real.exp (max (-20) (min 20 (-a * (t1 - b))))) ≤ (1 - c) / 1 := by
              gcongr
          _ = 1 - c := by norm_num
      linarith

/-- Closed witness for C4 at `theta1 = 0, theta2 = 1, a = 1, b = 0, c = 1/4`. -/
theorem C4_witness :
    _irt_3pl_probability 0 1 0 (1/4) ≤ _irt_3pl_probability 1 1 0 (1/4) ∧
    (1/4 ≤ _irt_3pl_probability 0 1 0 (1/4) ∧ _irt_3pl_probability 0 1 0 (1/4) ≤ 1) :=
  C4_irt_monotone_bounded 1 0 (1/4) 0 1 (by norm_num) (by norm_num)
    (by norm_num) (by norm_num) (by norm_num)

theorem insertEntry_ne_nil (acc : List (String × List QuizEntry)) (t : String)
    (e : QuizEntry) : insertEntry acc t e ≠ [] := by
  cases acc with
  | nil => simp [insertEntry]
  | cons g rest =>
      obtain ⟨t', es⟩ := g
      by_cases h : t' = t <;> simp [insertEntry, h]

theorem foldl_groupStep_ne_nil (tf : Option String) :
    ∀ (l : List QuizEntry) (acc : List (String × List QuizEntry)),
      acc ≠ [] → l.foldl (groupStep tf) acc ≠ [] := by
  intro l
  induction l with
  | nil => intro acc h; simpa using h
  | cons e rest ih =>
      intro acc h
      have hstep : groupStep tf acc e ≠ [] := by
        unfold groupStep
        cases tf with
        | none => exact insertEntry_ne_nil acc (topicOf e) e
        | some f =>
            by_cases hf : f = ""
            · simp only [hf]
              simp [insertEntry_ne_nil]
            · by_cases ht : topicOf e = f <;> simp [hf, ht, insertEntry_ne_nil, h]
      exact ih (groupStep tf acc e) hstep

theorem groupByTopic_none_ne_nil (hist : List QuizEntry) (h : hist ≠ []) :
    groupByTopic none hist ≠ [] := by
  cases hist with
  | nil => exact absurd rfl h
  | cons e rest =>
      show (rest.foldl (groupStep none) (groupStep none [] e)) ≠ []
      apply foldl_groupStep_ne_nil
      show insertEntry [] (topicOf e) e ≠ []
      exact insertEntry_ne_nil [] (topicOf e) e

/-- Claim C5: a student with fewer than 3 total quiz attempts gets status
`"insufficient_data"` with an empty analysis list; exactly 3 attempts with
no topic filter yield status `"success"`. -/
theorem C5_status_thresholds (ext : Ext) (sid : String) (hist : List QuizEntry) :
    (hist.length < 3 →
      (compute_competency_analysis ext sid hist none).status = "insufficient_data" ∧
      (compute_competency_analysis ext sid hist none).analyses = []) ∧
    (hist.length = 3 →
      (compute_competency_analysis ext sid hist none).status = "success") := by
  constructor
  · intro h
    have h3 : hist.length < MIN_QUIZ_ATTEMPTS_FOR_COMPETENCY := h
    constructor <;> simp [compute_competency_analysis, if_pos h3]
  · intro h
    have hnotlt : ¬ (hist.length < MIN_QUIZ_ATTEMPTS_FOR_COMPETENCY) := by
      rw [h]
      simp [MIN_QUIZ_ATTEMPTS_FOR_COMPETENCY]
    have hne : hist ≠ [] := by
      intro hc
      rw [hc] at h
      simp at h
    have hg : groupByTopic none hist ≠ [] := groupByTopic_none_ne_nil hist hne
    simp only [compute_competency_analysis, if_neg hnotlt, if_neg hg]

/-- A sample quiz-attempt record: topic `"Algebra"`, a correct 1/1 first
attempt with no timestamps. -/
def sampleEntry : QuizEntry :=
  ⟨some "Algebra", none, none, none, .bool true, 1, 1, 1, none, none, none, none, none⟩

/-- Closed witness for C5: two attempts give `"insufficient_data"` with an
empty list, three give `"success"`. -/
theorem C5_witness :
    ([sampleEntry, sampleEntry].length < 3 ∧
      (compute_competency_analysis dummyExt "s" [sampleEntry, sampleEntry] none).status
        = "insufficient_data" ∧
      (compute_competency_analysis dummyExt "s" [sampleEntry, sampleEntry] none).analyses
        = []) ∧
    ([sampleEntry, sampleEntry, sampleEntry].length = 3 ∧
      (compute_competency_analysis dummyExt "s"
        [sampleEntry, sampleEntry, sampleEntry] none).status = "success") := by
  constructor
  · have h := (C5_status_thresholds dummyExt "s" [sampleEntry, sampleEntry]).1 (by decide)
    exact ⟨by decide, h.1, h.2⟩
  · exact ⟨rfl, (C5_status_thresholds dummyExt "s"
      [sampleEntry, sampleEntry, sampleEntry]).2 rfl⟩

theorem insertEntry_groups_ne_nil (t : String) (e : QuizEntry) :
    ∀ (acc : List (String × List QuizEntry)), (∀ g ∈ acc, g.2 ≠ []) →
      ∀ g ∈ insertEntry acc t e, g.2 ≠ [] := by
  intro acc
  induction acc with
  | nil =>
      intro _ g hg
      simp [insertEntry] at hg
      rw [hg]
      simp
  | cons p rest ih =>
      intro h g hg
      obtain ⟨t', es⟩ := p
      by_cases heq : t' = t
      · simp only [insertEntry, if_pos heq, List.mem_cons] at hg
        rcases hg with hg | hg
        · rw [hg]
          simp
        · exact h g (List.mem_cons_of_mem _ hg)
      · simp only [insertEntry, if_neg heq, List.mem_cons] at hg
        rcases hg with hg | hg
        · rw [hg]
          exact h (t', es) (List.mem_cons_self _ _)
        · exact ih (fun g' hg' => h g' (List.mem_cons_of_mem _ hg')) g hg

theorem foldl_groupStep_groups_ne_nil (tf : Option String) :
    ∀ (l : List QuizEntry) (acc : List (String × List QuizEntry)),
      (∀ g ∈ acc, g.2 ≠ []) →
      ∀ g ∈ l.foldl (groupStep tf) acc, g.2 ≠ [] := by
  intro l
  induction l with
  | nil => intro acc h; simpa using h
  | cons e rest ih =>
      intro acc h
      apply ih
      unfold groupStep
      cases tf with
      | none => exact insertEntry_groups_ne_nil (topicOf e) e acc h
      | some f =>
          by_cases hf : f = ""
          · simp only [if_pos hf]
            exact insertEntry_groups_ne_nil (topicOf e) e acc h
          · by_cases ht : topicOf e = f
            · simp only [if_neg hf, if_pos ht]
              exact insertEntry_groups_ne_nil (topicOf e) e acc h
            · simp only [if_neg hf, if_neg ht]
              exact h

theorem groupByTopic_groups_ne_nil (tf : Option String) (hist : List QuizEntry) :
    ∀ g ∈ groupByTopic tf hist, g.2 ≠ [] :=
  foldl_groupStep_groups_ne_nil tf hist [] (by simp)

/-- Claim C1 (amended): every reported `masteryPercentage` is the count of
the topic's attempts that were correct first attempts divided by the
topic's TOTAL attempt count (not by the number of first attempts), as a
rounded percentage. -/
theorem C1_mastery_denominator (ext : Ext) (sid : String) (hist : List QuizEntry)
    (tf : Option String) (a : CompetencyAnalysis)
    (ha : a ∈ (compute_competency_analysis ext sid hist tf).analyses) :
    ∃ es, es ≠ [] ∧ (a.topicId, es) ∈ groupByTopic tf hist ∧
      a.masteryPercentage = pyRound 2
        ((es.countP (fun e => decide (e.attempts ≤ 1) && entryCorrect e) : ℚ) /
          (es.length : ℚ) * 100) := by
  by_cases h1 : hist.length < MIN_QUIZ_ATTEMPTS_FOR_COMPETENCY
  · simp [compute_competency_analysis, if_pos h1] at ha
  · by_cases h2 : groupByTopic tf hist = []
    · simp [compute_competency_analysis, if_neg h1, h2] at ha
    · simp only [compute_competency_analysis, if_neg h1, if_neg h2] at ha
      rw [List.mem_insertionSort] at ha
      rw [List.mem_map] at ha
      obtain ⟨g, hg, hga⟩ := ha
      have hne : g.2 ≠ [] := groupByTopic_groups_ne_nil tf hist g hg
      refine ⟨g.2, hne, ?_, ?_⟩
      · have htid : a.topicId = g.1 := by
          rw [← hga]
          rfl
        rw [htid]
        simpa using hg
      · have hmax : max g.2.length 1 = g.2.length := by
          have : 1 ≤ g.2.length := by
            cases hq : g.2 with
            | nil => exact absurd hq hne
            | cons x xs => simp
          omega
        rw [← hga]
        show pyRound 2 ((g.2.countP _ : ℚ) / ((max g.2.length 1 : ℕ) : ℚ) * 100) = _
        rw [hmax]

/-- A sample attempt like `sampleEntry` but recorded as a second try
(`attempts = 2`). -/
def sampleEntryRetry : QuizEntry :=
  ⟨some "Algebra", none, none, none, .bool true, 1, 1, 2, none, none, none, none, none⟩

/-- Counterexample to claim C1 as stated: three correct attempts on one
topic, two of them first attempts.  The fraction of first attempts that
were correct is 100 %, but the reported `masteryPercentage` is 66.67
because the source divides by the total attempt count. -/
theorem C1_counterexample :
    ((compute_competency_analysis dummyExt "s"
        [sampleEntry, sampleEntry, sampleEntryRetry] none).analyses.map
      (fun a => a.masteryPercentage)) = [6667/100] ∧
    masteryPercentage_claimed [sampleEntry, sampleEntry, sampleEntryRetry] = 100 ∧
    (6667/100 : ℚ) ≠ 100 := by decide

/-- Closed witness for C1's amended theorem on the same three-attempt
history. -/
theorem C1_witness :
    analyzeTopic dummyExt "Algebra" [sampleEntry, sampleEntry, sampleEntryRetry] ∈
      (compute_competency_analysis dummyExt "s"
        [sampleEntry, sampleEntry, sampleEntryRetry] none).analyses ∧
    ∃ es, es ≠ [] ∧
      ((analyzeTopic dummyExt "Algebra"
          [sampleEntry, sampleEntry, sampleEntryRetry]).topicId, es) ∈
        groupByTopic none [sampleEntry, sampleEntry, sampleEntryRetry] ∧
      (analyzeTopic dummyExt "Algebra"
          [sampleEntry, sampleEntry, sampleEntryRetry]).masteryPercentage = pyRound 2
        ((es.countP (fun e => decide (e.attempts ≤ 1) && entryCorrect e) : ℚ) /
          (es.length : ℚ) * 100) := by
  have hlist : (compute_competency_analysis dummyExt "s"
      [sampleEntry, sampleEntry, sampleEntryRetry] none).analyses
      = [analyzeTopic dummyExt "Algebra" [sampleEntry, sampleEntry, sampleEntryRetry]] := by
    decide
  have hmem : analyzeTopic dummyExt "Algebra" [sampleEntry, sampleEntry, sampleEntryRetry] ∈
      (compute_competency_analysis dummyExt "s"
        [sampleEntry, sampleEntry, sampleEntryRetry] none).analyses := by
    rw [hlist]
    exact List.mem_singleton_self _
  exact ⟨hmem, C1_mastery_denominator dummyExt "s"
    [sampleEntry, sampleEntry, sampleEntryRetry] none _ hmem⟩

/-- Claim C2 (amended): if the model artifact is missing, or an exception
is raised during inference (anywhere in the `try` body outside the inner
SHAP block, including `max()` on an empty probability row), the result is
exactly the rule-based prediction, and no exception reaches the caller
(the embedding is a total function).  An exception confined to the SHAP
explanation block is handled locally instead: the ML prediction is still
returned with a placeholder factor (see `C2_counterexample`). -/
theorem C2_fallback (data : EnhancedRiskRequest) (m : MLModel) :
    predict_risk_enhanced none data = _rule_based_risk data ∧
    (m.raisesOutsideShap = true →
      predict_risk_enhanced (some m) data = _rule_based_risk data) ∧
    (m.probabilitiesRaw = [] →
      predict_risk_enhanced (some m) data = _rule_based_risk data) := by
  refine ⟨rfl, ?_, ?_⟩
  · intro h
    simp [predict_risk_enhanced, h]
  · intro h
    by_cases hr : m.raisesOutsideShap = true
    · simp [predict_risk_enhanced, hr]
    · simp [predict_risk_enhanced, hr, h]

/-- A model whose inference succeeds but whose SHAP explanation raises. -/
def shapFailModel : MLModel := ⟨false, 2, [1/10, 2/10, 7/10], true, true, [], false, []⟩

/-- A sample risk-feature request. -/
def sampleRisk : EnhancedRiskRequest :=
  ⟨"s1", 80, 75, 90, 85, some 3, some 0, some 0, some 0, some 0, some 0, some 0⟩

/-- Counterexample to claim C2 as stated: an exception during the SHAP
explanation does not fall back to the rule-based scorer — the prediction
is still the ML one (`modelUsed = "ml_model"`), so the result differs from
calling the rule-based path directly. -/
theorem C2_counterexample :
    (predict_risk_enhanced (some shapFailModel) sampleRisk).modelUsed = "ml_model" ∧
    (_rule_based_risk sampleRisk).modelUsed = "rule_based" ∧
    predict_risk_enhanced (some shapFailModel) sampleRisk ≠ _rule_based_risk sampleRisk := by
  refine ⟨rfl, rfl, ?_⟩
  intro h
  have h2 := congrArg EnhancedRiskPrediction.modelUsed h
  simp only [predict_risk_enhanced, _rule_based_risk, shapFailModel] at h2
  exact absurd h2 (by decide)

/-- A model that raises during inference. -/
def raisingModel : MLModel := ⟨true, 0, [], false, false, [], false, []⟩

/-- Closed witness for C2's amended theorem: a missing artifact and a
raising model both return exactly the rule-based result. -/
theorem C2_witness :
    predict_risk_enhanced none sampleRisk = _rule_based_risk sampleRisk ∧
    raisingModel.raisesOutsideShap = true ∧
    predict_risk_enhanced (some raisingModel) sampleRisk = _rule_based_risk sampleRisk :=
  ⟨(C2_fallback sampleRisk raisingModel).1, rfl,
    (C2_fallback sampleRisk raisingModel).2.1 rfl⟩

/-- Claim C7: for every student history (cold start included), no returned
recommendation is for a topic whose current competency level is
`"advanced"` — the `currentCompetency` carried by each recommendation is
the level looked up from the competency analyses, and advanced topics are
skipped. -/
theorem C7_no_advanced (ext : Ext) (sid : String) (nrec : ℕ) (hist : List QuizEntry)
    (r : TopicRecommendation)
    (hr : r ∈ (recommend_topics ext sid nrec hist).recommendations) :
    r.currentCompetency ≠ "advanced" := by
  by_cases hh : hist = []
  · simp only [recommend_topics, if_pos hh] at hr
    have hm := List.mem_of_mem_take hr
    simp only [coldStartRecs, List.mem_cons, List.not_mem_nil, or_false] at hm
    rcases hm with hm | hm | hm <;> (rw [hm]; intro hc; exact absurd hc (by decide))
  · simp only [recommend_topics, if_neg hh] at hr
    have h1 := List.mem_of_mem_take hr
    rw [List.mem_insertionSort, List.mem_filterMap] at h1
    obtain ⟨t, _, hsome⟩ := h1
    simp only [scoreTopic] at hsome
    split at hsome
    · exact absurd hsome (by simp)
    · rw [Option.some_inj] at hsome
      intro hadv
      rw [← hsome] at hadv
      exact absurd hadv (by assumption)

/-- Closed witness for C7: the first cold-start recommendation is in the
returned list and is not at advanced competency. -/
theorem C7_witness :
    (⟨"Variables & Expressions", "Variables & Expressions", 95,
      "Foundational topic essential for all algebra. Start here to build a strong base.",
      3, true, "not_attempted"⟩ : TopicRecommendation) ∈
      (recommend_topics dummyExt "s" 5 []).recommendations ∧
    (⟨"Variables & Expressions", "Variables & Expressions", 95,
      "Foundational topic essential for all algebra. Start here to build a strong base.",
      3, true, "not_attempted"⟩ : TopicRecommendation).currentCompetency ≠ "advanced" := by
  have hmem : (⟨"Variables & Expressions", "Variables & Expressions", 95,
      "Foundational topic essential for all algebra. Start here to build a strong base.",
      3, true, "not_attempted"⟩ : TopicRecommendation) ∈
      (recommend_topics dummyExt "s" 5 []).recommendations := by
    show _ ∈ (coldStartRecs.take 5)
    simp [coldStartRecs]
  exact ⟨hmem, C7_no_advanced dummyExt "s" 5 [] _ hmem⟩

theorem labelOfQ_cases (b : ℚ) :
    labelOfQ b = "easy" ∨ labelOfQ b = "medium" ∨ labelOfQ b = "hard" := by
  unfold labelOfQ
  split_ifs <;> simp

theorem argmaxLabel_cases (tc c : SelCounts) :
    argmaxLabel tc c = "easy" ∨ argmaxLabel tc c = "medium" ∨ argmaxLabel tc c = "hard" := by
  unfold argmaxLabel
  split_ifs <;> simp

theorem selLabel_cases (tc c : SelCounts) (b : ℚ) :
    selLabel tc c b = "easy" ∨ selLabel tc c b = "medium" ∨ selLabel tc c b = "hard" := by
  unfold selLabel
  split_ifs
  · exact argmaxLabel_cases tc c
  · exact labelOfQ_cases b

theorem countOf_easy (c : SelCounts) : countOf c "easy" = c.easy := by simp [countOf]

theorem countOf_medium (c : SelCounts) : countOf c "medium" = c.medium := by simp [countOf]

theorem countOf_hard (c : SelCounts) : countOf c "hard" = c.hard := by simp [countOf]

theorem bumpCount_easy (c : SelCounts) : bumpCount c "easy" = ⟨c.easy + 1, c.medium, c.hard⟩ := by
  simp [bumpCount]

theorem bumpCount_medium (c : SelCounts) :
    bumpCount c "medium" = ⟨c.easy, c.medium + 1, c.hard⟩ := by
  simp [bumpCount]

theorem bumpCount_hard (c : SelCounts) : bumpCount c "hard" = ⟨c.easy, c.medium, c.hard + 1⟩ := by
  simp [bumpCount]

/-- The bucket charged by one selection step always has remaining quota,
as long as the total remaining quota is positive. -/
theorem selLabel_lt (tc c : SelCounts) (b : ℚ)
    (h1 : c.easy ≤ tc.easy) (h2 : c.medium ≤ tc.medium) (h3 : c.hard ≤ tc.hard)
    (hlt : c.easy + c.medium + c.hard < tc.easy + tc.medium + tc.hard) :
    countOf c (selLabel tc c b) < countOf tc (selLabel tc c b) := by
  unfold selLabel
  by_cases hfull : countOf c (labelOfQ b) ≥ countOf tc (labelOfQ b)
  · rw [if_pos hfull]
    unfold argmaxLabel
    split_ifs with ha hb
    · rw [countOf_easy, countOf_easy]
      omega
    · rw [countOf_medium, countOf_medium]
      omega
    · rw [countOf_hard, countOf_hard]
      push_neg at ha
      omega
  · rw [if_neg hfull]
    omega

/-- One selection step preserves the per-bucket quota bounds and adds
exactly one to the count total. -/
theorem selStep_inv (tc : SelCounts) (theta : ℚ) (st : SelCounts × List (ℚ × String)) (i : ℕ)
    (h1 : st.1.easy ≤ tc.easy) (h2 : st.1.medium ≤ tc.medium) (h3 : st.1.hard ≤ tc.hard)
    (hlt : st.1.easy + st.1.medium + st.1.hard < tc.easy + tc.medium + tc.hard) :
    ((selStep tc theta st i).1.easy ≤ tc.easy ∧
      (selStep tc theta st i).1.medium ≤ tc.medium ∧
      (selStep tc theta st i).1.hard ≤ tc.hard) ∧
    (selStep tc theta st i).1.easy + (selStep tc theta st i).1.medium +
        (selStep tc theta st i).1.hard
      = st.1.easy + st.1.medium + st.1.hard + 1 := by
  have hstrict := selLabel_lt tc st.1 (natB theta i) h1 h2 h3 hlt
  have hfst : (selStep tc theta st i).1 = bumpCount st.1 (selLabel tc st.1 (natB theta i)) := rfl
  rcases selLabel_cases tc st.1 (natB theta i) with hl | hl | hl <;>
    rw [hfst, hl] <;> rw [hl] at hstrict
  · rw [countOf_easy, countOf_easy] at hstrict
    rw [bumpCount_easy]
    refine ⟨⟨?_, ?_, ?_⟩, ?_⟩ <;> simp <;> omega
  · rw [countOf_medium, countOf_medium] at hstrict
    rw [bumpCount_medium]
    refine ⟨⟨?_, ?_, ?_⟩, ?_⟩ <;> simp <;> omega
  · rw [countOf_hard, countOf_hard] at hstrict
    rw [bumpCount_hard]
    refine ⟨⟨?_, ?_, ?_⟩, ?_⟩ <;> simp <;> omega

/-- The whole selection loop: after `n ≤ quota-total` steps the counters
are within their quotas and sum to `n`. -/
theorem selTrace_counts (theta : ℚ) (tc : SelCounts) :
    ∀ n, n ≤ tc.easy + tc.medium + tc.hard →
      ((selTrace theta n tc).1.easy ≤ tc.easy ∧
        (selTrace theta n tc).1.medium ≤ tc.medium ∧
        (selTrace theta n tc).1.hard ≤ tc.hard) ∧
      (selTrace theta n tc).1.easy + (selTrace theta n tc).1.medium +
          (selTrace theta n tc).1.hard = n := by
  intro n
  induction n with
  | zero =>
      intro _
      refine ⟨⟨?_, ?_, ?_⟩, ?_⟩ <;> simp [selTrace]
  | succ k ih =>
      intro hle
      have hk := ih (by omega)
      have hstep : selTrace theta (k + 1) tc = selStep tc theta (selTrace theta k tc) k := by
        unfold selTrace
        rw [List.range_succ, List.foldl_append]
        rfl
      rw [hstep]
      have := selStep_inv tc theta (selTrace theta k tc) k hk.1.1 hk.1.2.1 hk.1.2.2
        (by omega)
      exact ⟨this.1, by omega⟩

theorem SelCounts.eq_of_counts {a b : SelCounts} (he : a.easy = b.easy)
    (hm : a.medium = b.medium) (hh : a.hard = b.hard) : a = b := by
  cases a
  cases b
  simp_all

/-- For `n = 10`, every competency level's distribution row yields integer
targets that sum exactly to 10. -/
theorem targets_sum_ten (lvl : String) :
    (targetCountsOf 10 (distFor lvl).1 (distFor lvl).2.1 (distFor lvl).2.2).easy +
    (targetCountsOf 10 (distFor lvl).1 (distFor lvl).2.1 (distFor lvl).2.2).medium +
    (targetCountsOf 10 (distFor lvl).1 (distFor lvl).2.1 (distFor lvl).2.2).hard = 10 := by
  unfold distFor
  split_ifs <;> decide

/-- Claim C3: for `n = 10` questions and every theta in `[-4,4]` (hence
every competency bucket's distribution row), the difficulty histogram
returned by the adaptive quiz selector exactly equals the computed integer
target counts, and the counts sum to 10. -/
theorem C3_histogram (sid tid : String) (theta : ℚ) (hlo : -4 ≤ theta) (hhi : theta ≤ 4) :
    (select_adaptive_quiz_core sid tid theta 10).difficultyDistribution
      = targetCountsOf 10 (distFor (_get_competency_level ((theta + 4) / 8 * 100))).1
          (distFor (_get_competency_level ((theta + 4) / 8 * 100))).2.1
          (distFor (_get_competency_level ((theta + 4) / 8 * 100))).2.2 ∧
    (select_adaptive_quiz_core sid tid theta 10).difficultyDistribution.easy +
      (select_adaptive_quiz_core sid tid theta 10).difficultyDistribution.medium +
      (select_adaptive_quiz_core sid tid theta 10).difficultyDistribution.hard = 10 := by
  have hdd : (select_adaptive_quiz_core sid tid theta 10).difficultyDistribution
      = (selTrace theta 10 (targetCountsOf 10
          (distFor (_get_competency_level ((theta + 4) / 8 * 100))).1
          (distFor (_get_competency_level ((theta + 4) / 8 * 100))).2.1
          (distFor (_get_competency_level ((theta + 4) / 8 * 100))).2.2)).1 := rfl
  have hsum := targets_sum_ten (_get_competency_level ((theta + 4) / 8 * 100))
  have hc := selTrace_counts theta (targetCountsOf 10
      (distFor (_get_competency_level ((theta + 4) / 8 * 100))).1
      (distFor (_get_competency_level ((theta + 4) / 8 * 100))).2.1
      (distFor (_get_competency_level ((theta + 4) / 8 * 100))).2.2) 10 (by omega)
  have he := hc.1.1
  have hm := hc.1.2.1
  have hh := hc.1.2.2
  have hs := hc.2
  constructor
  · rw [hdd]
    apply SelCounts.eq_of_counts <;> omega
  · rw [hdd]
    omega

/-- Closed witness for C3 at `theta = 0` (the developing 4/4/2 row). -/
theorem C3_witness :
    (-4 ≤ (0 : ℚ) ∧ (0 : ℚ) ≤ 4) ∧
    ((select_adaptive_quiz_core "s" "t" 0 10).difficultyDistribution
      = targetCountsOf 10 (distFor (_get_competency_level ((0 + 4) / 8 * 100))).1
          (distFor (_get_competency_level ((0 + 4) / 8 * 100))).2.1
          (distFor (_get_competency_level ((0 + 4) / 8 * 100))).2.2 ∧
    (select_adaptive_quiz_core "s" "t" 0 10).difficultyDistribution.easy +
      (select_adaptive_quiz_core "s" "t" 0 10).difficultyDistribution.medium +
      (select_adaptive_quiz_core "s" "t" 0 10).difficultyDistribution.hard = 10) :=
  ⟨by norm_num, C3_histogram "s" "t" 0 (by norm_num) (by norm_num)⟩

theorem log_five_fourths_bounds :
    (223139 : ℝ)/1000000 ≤ Real.log (5/4) ∧ Real.log (5/4) ≤ (223147 : ℝ)/1000000 := by
  have hx : |(1/5 : ℝ)| < 1 := by
    rw [abs_of_pos (by norm_num : (0:ℝ) < 1/5)]
    norm_num
  have h := Real.abs_log_sub_add_sum_range_le hx 7
  have habs : |(1/5 : ℝ)| = 1/5 := abs_of_pos (by norm_num)
  rw [habs] at h
  have hsum : (∑ i ∈ Finset.range 7, ((1:ℝ)/5) ^ (i+1) / (i+1)) = 1464377/6562500 := by
    simp [Finset.sum_range_succ]
    norm_num
  have h45 : Real.log (1 - 1/5) = -Real.log (5/4) := by
    have h1 : (1:ℝ) - 1/5 = (5/4)⁻¹ := by norm_num
    rw [h1, Real.log_inv]
  rw [hsum, h45] at h
  have hb : ((1:ℝ)/5) ^ (7+1) / (1 - 1/5) = 1/312500 := by norm_num
  rw [hb, abs_le] at h
  constructor <;> linarith [h.1, h.2]

theorem log_ninetynine_hundredths_bounds :
    -((1005035 : ℝ)/100000000) ≤ Real.log (99/100) ∧
      Real.log (99/100) ≤ -((1005032 : ℝ)/100000000) := by
  have hx : |(1/100 : ℝ)| < 1 := by
    rw [abs_of_pos (by norm_num : (0:ℝ) < 1/100)]
    norm_num
  have h := Real.abs_log_sub_add_sum_range_le hx 3
  have habs : |(1/100 : ℝ)| = 1/100 := abs_of_pos (by norm_num)
  rw [habs] at h
  have hsum : (∑ i ∈ Finset.range 3, ((1:ℝ)/100) ^ (i+1) / (i+1)) = 30151/3000000 := by
    simp [Finset.sum_range_succ]
    norm_num
  have h99 : ((1:ℝ) - 1/100) = 99/100 := by norm_num
  rw [hsum, h99] at h
  have hb : ((1:ℝ)/100) ^ (3+1) / (99/100) = 1/99000000 := by norm_num
  rw [hb, abs_le] at h
  constructor <;> linarith [h.1, h.2]

theorem log99_decomp :
    Real.log 99 = 6 * Real.log 2 + 2 * Real.log (5/4) + Real.log (99/100) := by
  have h99 : (99:ℝ) = 2 ^ 6 * (5/4) ^ 2 * (99/100) := by norm_num
  rw [h99, Real.log_mul (by norm_num) (by norm_num), Real.log_mul (by norm_num) (by norm_num),
    Real.log_pow, Real.log_pow]
  push_cast
  ring

theorem log99_bounds : (45951 : ℝ)/10000 ≤ Real.log 99 ∧ Real.log 99 ≤ (45952 : ℝ)/10000 := by
  have h2a := Real.log_two_gt_d9
  have h2b := Real.log_two_lt_d9
  have h54 := log_five_fourths_bounds
  have h99 := log_ninetynine_hundredths_bounds
  have hd := log99_decomp
  constructor <;> linarith [h54.1, h54.2, h99.1, h99.2]

/-- `round(log(0.01/0.99), 3)` is exactly `-4.595`. -/
theorem pyRoundR_log_inv99 : pyRoundR 3 (Real.log ((1:ℝ)/99)) = -(4595/1000 : ℝ) := by
  have hlog : Real.log ((1:ℝ)/99) = -Real.log 99 := by
    rw [one_div, Real.log_inv]
  have hl := log99_bounds
  have hfl : ⌊Real.log ((1:ℝ)/99) * 10 ^ 3⌋ = -4596 := by
    apply Int.floor_eq_iff.mpr
    constructor
    · rw [hlog]
      push_cast
      linarith [hl.2]
    · rw [hlog]
      push_cast
      linarith [hl.1]
  unfold pyRoundR rndHER
  rw [hfl]
  have hc1 : ¬ (Real.log ((1:ℝ)/99) * 10 ^ 3 - ((-4596 : ℤ) : ℝ) < 1/2) := by
    rw [hlog]
    push_cast
    linarith [hl.2]
  have hc2 : (1:ℝ)/2 < Real.log ((1:ℝ)/99) * 10 ^ 3 - ((-4596 : ℤ) : ℝ) := by
    rw [hlog]
    push_cast
    linarith [hl.2]
  rw [if_neg hc1, if_pos hc2]
  push_cast
  norm_num

/-- Claim C8: on a nonempty all-correct batch, difficulty calibration
computes `successRate = 1.0`, clamps it to `p = 0.99`, returns
`b = round(ln(0.01/0.99), 3) = -4.595`, and labels the question "easy". -/
theorem C8_calibration (qid : String) (responses : List CalibEntry)
    (hne : responses ≠ []) (hall : ∀ r ∈ responses, r.correct = true) :
    ∃ resp, calibrate_question_difficulty qid responses = some resp ∧
      resp.successRate = 1 ∧
      resp.difficultyParameter = pyRoundR 3 (Real.log ((1 - (99/100 : ℝ)) / (99/100 : ℝ))) ∧
      resp.difficultyParameter = -(4595/1000 : ℝ) ∧
      resp.difficultyLabel = "easy" := by
  have hcount : responses.countP (fun r => r.correct) = responses.length :=
    List.countP_eq_length.mpr (fun a ha => hall a ha)
  have hlen : (responses.length : ℚ) ≠ 0 := by
    have hp : 0 < responses.length := List.length_pos.mpr hne
    exact_mod_cast Nat.pos_iff_ne_zero.mp hp
  have hsr : ((responses.countP (fun r => r.correct) : ℚ) / (responses.length : ℚ)) = 1 := by
    rw [hcount]
    exact div_self hlen
  have hp99 : max (1/100 : ℚ) (min (99/100) 1) = 99/100 := by norm_num
  have hcastp : (((99/100 : ℚ)) : ℝ) = (99/100 : ℝ) := by push_cast; ring
  have harg : ((1:ℝ) - 99/100) / (99/100) = 1/99 := by norm_num
  simp only [calibrate_question_difficulty, if_neg hne]
  rw [hsr, hp99, hcastp]
  refine ⟨_, rfl, ?_, rfl, ?_, ?_⟩
  · show pyRound 4 1 = 1
    decide
  · show pyRoundR 3 (Real.log ((1 - (99/100 : ℝ)) / (99/100 : ℝ))) = -(4595/1000 : ℝ)
    rw [harg]
    exact pyRoundR_log_inv99
  · show (if pyRoundR 3 (Real.log ((1 - (99/100 : ℝ)) / (99/100 : ℝ))) < -1 then "easy"
      else if pyRoundR 3 (Real.log ((1 - (99/100 : ℝ)) / (99/100 : ℝ))) < 1 then "medium"
      else "hard") = "easy"
    rw [harg, pyRoundR_log_inv99]
    rw [if_pos (by norm_num : (-(4595/1000 : ℝ)) < -1)]

/-- Ten all-correct responses, 60 seconds each. -/
def tenCorrect : List CalibEntry := List.replicate 10 ⟨true, 60⟩

/-- Closed witness for C8 on a batch of 10 correct responses. -/
theorem C8_witness :
    (tenCorrect ≠ [] ∧ ∀ r ∈ tenCorrect, r.correct = true) ∧
    ∃ resp, calibrate_question_difficulty "q1" tenCorrect = some resp ∧
      resp.successRate = 1 ∧
      resp.difficultyParameter = pyRoundR 3 (Real.log ((1 - (99/100 : ℝ)) / (99/100 : ℝ))) ∧
      resp.difficultyParameter = -(4595/1000 : ℝ) ∧
      resp.difficultyLabel = "easy" :=
  ⟨⟨by decide, by decide⟩, C8_calibration "q1" tenCorrect (by decide) (by decide)⟩

end MathPulse
